import Mathlib

/-!
Verification development for the mclang compiler pipeline
(src/compiler/lexer.py, src/compiler/parser.py, src/compiler/top.py).

The Python source is shallowly embedded as executable Lean definitions:

* Python ints are `Int` (arbitrary precision, as in Python); the Python
  `bool` type, a subclass of `int`, is a separate `Value` constructor that
  coerces to 0/1 wherever an int is expected.
* Python floats are modelled as exact rationals (`Rat`).  All float
  arithmetic reachable from the claims stays inside the rationals; the one
  operation that can leave them (`**` with a non-integral exponent) is
  mapped to a dedicated error marker and is unreachable from every claim.
* The mutable `Environment` chain of top.py is a store: a list of frames,
  each holding a parent pointer (index of an earlier frame) and an
  association list of bindings.  Identity of environments is identity of
  indices, matching Python object identity.
* Exceptions are an explicit error type threaded through evaluation;
  `ReturnException` is the `retSignal` variant, and errors raised by the
  Python runtime itself (IndexError, TypeError, ZeroDivisionError,
  ValueError from int()/float()) are the `host*` markers, kept distinct
  from the ValueErrors that top.py raises itself.
* Loops and recursion are made total with a fuel parameter; `fuelOut` is
  an artefact of the embedding, not a behaviour of the program.
-/

/-- AST of top.py: one constructor per dataclass.  The literal dataclasses
store their text, exactly as in the source (`Int(val: str)`,
`Float(val: str)`); conversion to a number happens at evaluation time. -/
inductive AST where
  | binOp (op : String) (left right : AST)
  | unOp (op : String) (num : AST)
  | floatLit (val : String)
  | intLit (val : String)
  | parens (val : AST)
  | ifNode (cond then_ : AST) (elseifBranches : List (AST × AST)) (else_ : Option AST)
  | varDecl (name : String) (value : AST)
  | varRef (name : String)
  | assignNode (name : String) (value : AST)
  | program (statements : List AST)
  | forNode (init condition increment body : AST)
  | whileNode (condition body : AST)
  | printNode (expr : AST)
  | funcCall (name : String) (args : List AST)
  | arrayLit (elements : List AST)
  | arrayIndex (array index : AST)
  | funcDef (name : String) (params : List String) (body : AST)
  | returnNode (value : AST)

/-- Runtime values: Python int, bool (subclass of int), float (as exact
rational), list, UserFunction (params, body, captured environment index),
and None. -/
inductive Value where
  | vint (n : Int)
  | vbool (b : Bool)
  | vfloat (q : Rat)
  | varr (elems : List Value)
  | vfun (params : List String) (body : AST) (closure : Nat)
  | vnone

/-- Errors.  The first group are the ValueErrors that top.py raises with
its own messages; `retSignal` is `ReturnException` (internal control
transfer); the `host*` markers are exceptions raised by the Python runtime
itself, not by top.py; `nonRepresentable` marks float results that leave
the rational model (never reached from the claims); `fuelOut` is the
artificial out-of-fuel marker of the embedding. -/
inductive Err where
  | undefinedVariable (name : String)
  | unsupportedBinOp (op : String)
  | arityMismatch (name : String)
  | unknownFunction (name : String)
  | nonIntegerIndex
  | unsupportedNode
  | retSignal (v : Value)
  | hostIndexError
  | hostTypeError
  | hostZeroDivision
  | hostValueError
  | nonRepresentable
  | fuelOut

/-- One Environment object of top.py: parent pointer and own bindings. -/
structure Frame where
  parent : Option Nat
  values : List (String × Value)

/-- Interpreter state: the store of all environment frames ever created
(index = object identity) and the list of values printed so far. -/
structure State where
  envs : List Frame
  output : List Value

/-- Lookup in one frame's own mapping (Python dict membership/read). -/
def getVal : List (String × Value) → String → Option Value
  | [], _ => none
  | (k, v) :: rest, n => if k = n then some v else getVal rest n

/-- Write into one frame's own mapping: overwrite the binding if the key
is present, append it otherwise (Python dict assignment). -/
def setVal : List (String × Value) → String → Value → List (String × Value)
  | [], n, v => [(n, v)]
  | (k, w) :: rest, n, v => if k = n then (k, v) :: rest else (k, w) :: setVal rest n v

def getFrame (s : State) (i : Nat) : Frame := s.envs.getD i ⟨none, []⟩

def setFrameValues (s : State) (i : Nat) (vals : List (String × Value)) : State :=
  { s with envs := s.envs.set i { getFrame s i with values := vals } }

/-- Environment.lookup: search the frame, then the parent chain; a missing
name is the ValueError "Variable ... not defined".  The fuel only guards
against parent cycles, which never occur in reachable states. -/
def envLookup : Nat → State → Nat → String → Except Err Value
  | 0, _, _, _ => .error .fuelOut
  | fuel + 1, s, i, name =>
    match getVal (getFrame s i).values name with
    | some v => .ok v
    | none =>
      match (getFrame s i).parent with
      | some p => envLookup fuel s p name
      | none => .error (.undefinedVariable name)

/-- Environment.assign: mutate the nearest frame in the chain that already
binds the name; error if none does. -/
def envAssign : Nat → State → Nat → String → Value → Except Err State
  | 0, _, _, _, _ => .error .fuelOut
  | fuel + 1, s, i, name, v =>
    if (getVal (getFrame s i).values name).isSome then
      .ok (setFrameValues s i (setVal (getFrame s i).values name v))
    else
      match (getFrame s i).parent with
      | some p => envAssign fuel s p name v
      | none => .error (.undefinedVariable name)

/-- Environment.declare: unconditionally bind in the current frame. -/
def envDeclare (s : State) (i : Nat) (name : String) (v : Value) : State :=
  setFrameValues s i (setVal (getFrame s i).values name v)

/-- Environment(parent): allocate a fresh frame; its index is returned. -/
def pushEnv (s : State) (parent : Nat) : Nat × State :=
  (s.envs.length, { s with envs := s.envs ++ [⟨some parent, []⟩] })

/-- Numeric view of a value: Python int (bools coerce to 0/1) or float. -/
inductive NumV where
  | i (n : Int)
  | f (q : Rat)
deriving DecidableEq

def toNum : Value → Option NumV
  | .vint n => some (.i n)
  | .vbool b => some (.i (if b then 1 else 0))
  | .vfloat q => some (.f q)
  | _ => none

def NumV.toQ : NumV → Rat
  | .i n => (n : Rat)
  | .f q => q

def numToValue : NumV → Value
  | .i n => .vint n
  | .f q => .vfloat q

/-- isinstance(v, int) in Python is true for ints and bools. -/
def isIntInstance : Value → Bool
  | .vint _ => true
  | .vbool _ => true
  | _ => false

/-- The int an int-instance stands for (bools are 1/0). -/
def valToInt : Value → Int
  | .vint n => n
  | .vbool b => if b then 1 else 0
  | _ => 0

/-- Python addition on numbers: int+int stays int, otherwise float. -/
def numAdd : NumV → NumV → NumV
  | .i a, .i b => .i (a + b)
  | a, b => .f (a.toQ + b.toQ)

def numSub : NumV → NumV → NumV
  | .i a, .i b => .i (a - b)
  | a, b => .f (a.toQ - b.toQ)

def numMul : NumV → NumV → NumV
  | .i a, .i b => .i (a * b)
  | a, b => .f (a.toQ * b.toQ)

/-- Floor of a rational, used for Python float % and //. -/
def qfloor (q : Rat) : Int := Int.fdiv q.num (q.den : Int)

/-- Python %, sign follows the divisor.  int%int is Int.fmod; with a float
involved the result is a - b*floor(a/b).  Divisor 0 raises
ZeroDivisionError. -/
def numMod (l r : NumV) : Except Err NumV :=
  if r.toQ = 0 then .error .hostZeroDivision
  else
    match l, r with
    | .i a, .i b => .ok (.i (Int.fmod a b))
    | a, b => .ok (.f (a.toQ - b.toQ * (qfloor (a.toQ / b.toQ) : Rat)))

/-- Python //: floor division; int//int stays int, else float. -/
def numFloorDiv (l r : NumV) : Except Err NumV :=
  if r.toQ = 0 then .error .hostZeroDivision
  else
    match l, r with
    | .i a, .i b => .ok (.i (Int.fdiv a b))
    | a, b => .ok (.f ((qfloor (a.toQ / b.toQ) : Rat)))

/-- Python **: int base with nonnegative int exponent stays int; a
negative int exponent gives a float; a float exponent with integral value
acts like that int; a non-integral exponent leaves the rational model. -/
def numPow (l r : NumV) : Except Err NumV :=
  match l, r with
  | .i a, .i n =>
    if 0 ≤ n then .ok (.i (a ^ n.toNat))
    else if a = 0 then .error .hostZeroDivision
    else .ok (.f ((a : Rat) ^ n))
  | .f q, .i n =>
    if q = 0 ∧ n < 0 then .error .hostZeroDivision else .ok (.f (q ^ n))
  | a, .f p =>
    if p.den = 1 then
      match a with
      | .i b =>
        if 0 ≤ p.num then .ok (.f ((b : Rat) ^ p.num))
        else if b = 0 then .error .hostZeroDivision
        else .ok (.f ((b : Rat) ^ p.num))
      | .f q => if q = 0 ∧ p.num < 0 then .error .hostZeroDivision else .ok (.f (q ^ p.num))
    else .error .nonRepresentable

/-- Structural equality of two optional ASTs, given an equality test. -/
def astOptBeq (f : AST → AST → Bool) : Option AST → Option AST → Bool
  | none, none => true
  | some a, some b => f a b
  | _, _ => false

/-- Structural equality of two AST lists, given an equality test. -/
def astListBeq (f : AST → AST → Bool) : List AST → List AST → Bool
  | [], [] => true
  | a :: as_, b :: bs => f a b && astListBeq f as_ bs
  | _, _ => false

/-- Structural equality of elseif-branch lists, given an equality test. -/
def astPairsBeq (f : AST → AST → Bool) : List (AST × AST) → List (AST × AST) → Bool
  | [], [] => true
  | (a, a') :: as_, (b, b') :: bs => f a b && f a' b' && astPairsBeq f as_ bs
  | _, _ => false

/-- Structural (dataclass) equality of ASTs.  Like every recursive walk in
this embedding it carries fuel (always passed large enough by the
evaluator); Python itself would hit RecursionError on comparable depths. -/
def astBeqF : Nat → AST → AST → Bool
  | 0, _, _ => false
  | fuel + 1, a, b =>
    match a, b with
    | .binOp o1 l1 r1, .binOp o2 l2 r2 => o1 == o2 && astBeqF fuel l1 l2 && astBeqF fuel r1 r2
    | .unOp o1 x1, .unOp o2 x2 => o1 == o2 && astBeqF fuel x1 x2
    | .floatLit v1, .floatLit v2 => v1 == v2
    | .intLit v1, .intLit v2 => v1 == v2
    | .parens x1, .parens x2 => astBeqF fuel x1 x2
    | .ifNode c1 t1 br1 e1, .ifNode c2 t2 br2 e2 =>
      astBeqF fuel c1 c2 && astBeqF fuel t1 t2 &&
        astPairsBeq (astBeqF fuel) br1 br2 && astOptBeq (astBeqF fuel) e1 e2
    | .varDecl n1 v1, .varDecl n2 v2 => n1 == n2 && astBeqF fuel v1 v2
    | .varRef n1, .varRef n2 => n1 == n2
    | .assignNode n1 v1, .assignNode n2 v2 => n1 == n2 && astBeqF fuel v1 v2
    | .program s1, .program s2 => astListBeq (astBeqF fuel) s1 s2
    | .forNode i1 c1 n1 b1, .forNode i2 c2 n2 b2 =>
      astBeqF fuel i1 i2 && astBeqF fuel c1 c2 && astBeqF fuel n1 n2 && astBeqF fuel b1 b2
    | .whileNode c1 b1, .whileNode c2 b2 => astBeqF fuel c1 c2 && astBeqF fuel b1 b2
    | .printNode x1, .printNode x2 => astBeqF fuel x1 x2
    | .funcCall n1 a1, .funcCall n2 a2 => n1 == n2 && astListBeq (astBeqF fuel) a1 a2
    | .arrayLit e1, .arrayLit e2 => astListBeq (astBeqF fuel) e1 e2
    | .arrayIndex a1 i1, .arrayIndex a2 i2 => astBeqF fuel a1 a2 && astBeqF fuel i1 i2
    | .funcDef n1 p1 b1, .funcDef n2 p2 b2 => n1 == n2 && p1 == p2 && astBeqF fuel b1 b2
    | .returnNode v1, .returnNode v2 => astBeqF fuel v1 v2
    | _, _ => false

/-- Python truthiness (bool(v)): nonzero numbers, True, nonempty lists and
function objects are truthy; 0, 0.0, False, [] and None are falsy. -/
def truthy : Value → Bool
  | .vint n => n ≠ 0
  | .vbool b => b
  | .vfloat q => q ≠ 0
  | .varr elems => !elems.isEmpty
  | .vfun _ _ _ => true
  | .vnone => false

/-- Python == on values: numbers (bools included) compare by value across
int/float, lists compare elementwise, function objects compare as their
dataclass fields with environment identity, None equals None, and any
other mix is unequal.  `none` means the fuel ran out (an artefact of the
embedding, never reached at the fuel the evaluator supplies). -/
def pyEqF : Nat → Value → Value → Option Bool
  | 0, _, _ => none
  | fuel + 1, v, w =>
    match toNum v, toNum w with
    | some a, some b => some (a.toQ == b.toQ)
    | _, _ =>
      match v, w with
      | .varr [], .varr [] => some true
      | .varr (x :: xs), .varr (y :: ys) =>
        match pyEqF fuel x y, pyEqF fuel (.varr xs) (.varr ys) with
        | some h, some t => some (h && t)
        | _, _ => none
      | .vfun p1 b1 c1, .vfun p2 b2 c2 => some (p1 == p2 && astBeqF fuel b1 b2 && c1 == c2)
      | .vnone, .vnone => some true
      | _, _ => some false

/-- Python ordering comparison: numbers by value; lists lexicographically
(first differing element decides, else the shorter is smaller); any other
pair raises TypeError. -/
def pyCmpF : Nat → Value → Value → Except Err Ordering
  | 0, _, _ => .error .fuelOut
  | fuel + 1, v, w =>
    match toNum v, toNum w with
    | some a, some b =>
      .ok (if a.toQ < b.toQ then .lt else if b.toQ < a.toQ then .gt else .eq)
    | _, _ =>
      match v, w with
      | .varr [], .varr [] => .ok .eq
      | .varr [], .varr (_ :: _) => .ok .lt
      | .varr (_ :: _), .varr [] => .ok .gt
      | .varr (x :: xs), .varr (y :: ys) =>
        match pyEqF fuel x y with
        | none => .error .fuelOut
        | some true => pyCmpF fuel (.varr xs) (.varr ys)
        | some false => pyCmpF fuel x y
      | _, _ => .error .hostTypeError

/-- Python + : numeric addition, or list concatenation; anything else is a
TypeError. -/
def pyAdd (v w : Value) : Except Err Value :=
  match toNum v, toNum w with
  | some a, some b => .ok (numToValue (numAdd a b))
  | _, _ =>
    match v, w with
    | .varr xs, .varr ys => .ok (.varr (xs ++ ys))
    | _, _ => .error .hostTypeError

/-- Python - : numeric only. -/
def pySub (v w : Value) : Except Err Value :=
  match toNum v, toNum w with
  | some a, some b => .ok (numToValue (numSub a b))
  | _, _ => .error .hostTypeError

/-- Python list repetition: n copies of the list, empty for n <= 0. -/
def listRepeat (n : Int) (xs : List Value) : List Value :=
  (List.replicate n.toNat xs).flatten

/-- Python * : numeric multiplication, or list repetition by an
int-instance on either side; anything else is a TypeError. -/
def pyMul (v w : Value) : Except Err Value :=
  match toNum v, toNum w with
  | some a, some b => .ok (numToValue (numMul a b))
  | _, _ =>
    match v, w with
    | .varr xs, _ => if isIntInstance w then .ok (.varr (listRepeat (valToInt w) xs)) else .error .hostTypeError
    | _, .varr ys => if isIntInstance v then .ok (.varr (listRepeat (valToInt v) ys)) else .error .hostTypeError
    | _, _ => .error .hostTypeError

/-- The / case of top.py, line for line: when the left value is an int
instance and left % right == 0, return floor division (an int quotient for
int operands); otherwise return true division, which in Python is always
a float. -/
def pyDivOp (v w : Value) : Except Err Value :=
  match toNum v, toNum w with
  | some a, some b =>
    if isIntInstance v then
      match numMod a b with
      | .error err => .error err
      | .ok m =>
        if m.toQ = 0 then
          match numFloorDiv a b with
          | .error err => .error err
          | .ok d => .ok (numToValue d)
        else .ok (.vfloat (a.toQ / b.toQ))
    else
      if b.toQ = 0 then .error .hostZeroDivision
      else .ok (.vfloat (a.toQ / b.toQ))
  | _, _ => .error .hostTypeError

/-- Python % on values: numeric only here (no strings in this language). -/
def pyModOp (v w : Value) : Except Err Value :=
  match toNum v, toNum w with
  | some a, some b =>
    match numMod a b with
    | .error err => .error err
    | .ok m => .ok (numToValue m)
  | _, _ => .error .hostTypeError

/-- Python ** on values: numeric only. -/
def pyPowOp (v w : Value) : Except Err Value :=
  match toNum v, toNum w with
  | some a, some b =>
    match numPow a b with
    | .error err => .error err
    | .ok m => .ok (numToValue m)
  | _, _ => .error .hostTypeError

/-- Comparison dispatch: true when the ordering is one of the allowed
outcomes. -/
def pyCmpTest (fuel : Nat) (v w : Value) (allowed : Ordering → Bool) : Except Err Value :=
  match pyCmpF fuel v w with
  | .error err => .error err
  | .ok o => .ok (.vbool (allowed o))

/-- The operator match inside the BinOp case of top.py, in source order.
Logical and/or return one of the operands, as Python and/or do on already
evaluated values; an unknown operator is the "Unsupported binary operator"
ValueError.  The fuel (supplied by the evaluator) only feeds the list
walks inside == and the order comparisons. -/
def binOpEval (fuel : Nat) (op : String) (l r : Value) : Except Err Value :=
  match op with
  | "**" => pyPowOp l r
  | "*" => pyMul l r
  | "/" => pyDivOp l r
  | "%" => pyModOp l r
  | "+" => pyAdd l r
  | "-" => pySub l r
  | "<" => pyCmpTest fuel l r (· == .lt)
  | "<=" => pyCmpTest fuel l r (fun o => o == .lt || o == .eq)
  | ">" => pyCmpTest fuel l r (· == .gt)
  | ">=" => pyCmpTest fuel l r (fun o => o == .gt || o == .eq)
  | "==" =>
    match pyEqF fuel l r with
    | some b => .ok (.vbool b)
    | none => .error .fuelOut
  | "!=" =>
    match pyEqF fuel l r with
    | some b => .ok (.vbool (!b))
    | none => .error .fuelOut
  | "and" => .ok (if truthy l then r else l)
  | "or" => .ok (if truthy l then l else r)
  | _ => .error (.unsupportedBinOp op)

/-- The fold inside Python max: replace the current item when the next one
is strictly greater; on ties the earlier item is kept. -/
def pyMaxFold (fuel : Nat) : Value → List Value → Except Err Value
  | acc, [] => .ok acc
  | acc, v :: vs =>
    match pyCmpF fuel v acc with
    | .ok .gt => pyMaxFold fuel v vs
    | .ok _ => pyMaxFold fuel acc vs
    | .error err => .error err

/-- The fold inside Python min: replace when strictly smaller. -/
def pyMinFold (fuel : Nat) : Value → List Value → Except Err Value
  | acc, [] => .ok acc
  | acc, v :: vs =>
    match pyCmpF fuel v acc with
    | .ok .lt => pyMinFold fuel v vs
    | .ok _ => pyMinFold fuel acc vs
    | .error err => .error err

/-- Python max(*args): no argument is a TypeError; a single argument is
unpacked as an iterable, so a single list argument yields the maximum of
its elements (ValueError when empty) and a single non-list argument is a
TypeError; two or more arguments yield their maximum. -/
def pyMax (fuel : Nat) : List Value → Except Err Value
  | [] => .error .hostTypeError
  | [.varr []] => .error .hostValueError
  | [.varr (x :: xs)] => pyMaxFold fuel x xs
  | [_] => .error .hostTypeError
  | v :: vs => pyMaxFold fuel v vs

/-- Python min(*args), symmetric to `pyMax`. -/
def pyMin (fuel : Nat) : List Value → Except Err Value
  | [] => .error .hostTypeError
  | [.varr []] => .error .hostValueError
  | [.varr (x :: xs)] => pyMinFold fuel x xs
  | [_] => .error .hostTypeError
  | v :: vs => pyMinFold fuel v vs

/-- Python list subscription arr[i]: indices 0..len-1 read directly,
negative indices -len..-1 read from the end, anything else raises the
host IndexError. -/
def pyIndex (xs : List Value) (i : Int) : Except Err Value :=
  if 0 ≤ i ∧ i < (xs.length : Int) then .ok (xs.getD i.toNat .vnone)
  else if 0 ≤ i + (xs.length : Int) ∧ i < 0 then .ok (xs.getD (i + (xs.length : Int)).toNat .vnone)
  else .error .hostIndexError

/-- Value of a digit string (most significant digit first). -/
def digitsToNatAux (acc : Nat) : List Char → Nat
  | [] => acc
  | c :: rest => digitsToNatAux (10 * acc + (c.toNat - '0'.toNat)) rest

/-- Digits of a numeric literal as a natural number. -/
def digitsToNat (cs : List Char) : Nat := digitsToNatAux 0 cs

/-- Python int(text): an optional sign followed by digits (the only forms
the evaluator can receive from literals); anything else raises the host
ValueError. -/
def pyStrToInt (t : String) : Option Int :=
  match t.data with
  | [] => none
  | '-' :: rest =>
    if rest ≠ [] ∧ rest.all Char.isDigit then some (-(digitsToNat rest : Int)) else none
  | cs =>
    if cs.all Char.isDigit then some ((digitsToNat cs : Int)) else none

/-- Python float(text) for the texts the lexer can produce: digits with at
most one decimal point (a trailing point is allowed, as in "5."). -/
def pyStrToFloat (t : String) : Option Rat :=
  let cs := t.data
  let intPart := cs.takeWhile Char.isDigit
  match cs.dropWhile Char.isDigit with
  | [] => if intPart ≠ [] then some ((digitsToNat intPart : Rat)) else none
  | '.' :: fracPart =>
    if intPart ≠ [] ∧ fracPart.all Char.isDigit then
      some ((digitsToNat intPart : Rat) + (digitsToNat fracPart : Rat) / ((10 : Rat) ^ fracPart.length))
    else none
  | _ => none

/-- Parameter binding of a user function call: declare each parameter in
the fresh call environment (the zip of params and evaluated arguments). -/
def bindParams (s : State) (envId : Nat) : List String → List Value → State
  | p :: ps, a :: as_ => bindParams (envDeclare s envId p a) envId ps as_
  | _, _ => s

/-- Work items of the evaluator.  `ev` is one call of the Python function
e(tree, env); the other constructors are the loops written inline in e:
the statement loop of the Program case, the list comprehensions that
evaluate call arguments and array elements, and the while loops inside
the For and While cases. -/
inductive EvTask where
  | ev (tree : AST)
  | evStmts (stmts : List AST) (acc : Value)
  | evArgs (args : List AST) (acc : List Value)
  | evForLoop (condition increment body : AST) (acc : Value)
  | evWhileLoop (condition body : AST) (acc : Value)
  | evElseifs (branches : List (AST × AST)) (else_ : Option AST)

/-- The evaluator e of top.py.  One fuel unit is spent per task step, so
any terminating Python execution is reproduced exactly by every
sufficiently large fuel; fuelOut only stands for non-termination.  The
environment argument is the index of the current Environment object. -/
def run : Nat → EvTask → Nat → State → Except Err Value × State
  | 0, _, _, s => (.error .fuelOut, s)
  | fuel + 1, .ev tree, env, s =>
    match tree with
    | .funcDef name params body =>
      let uf : Value := .vfun params body env
      ((.ok uf), envDeclare s env name uf)
    | .program stmts => run fuel (.evStmts stmts .vnone) env s
    | .varDecl name value =>
      match run fuel (.ev value) env s with
      | (.ok v, s1) => (.ok v, envDeclare s1 env name v)
      | err => err
    | .assignNode name value =>
      match run fuel (.ev value) env s with
      | (.ok v, s1) =>
        match envAssign (s1.envs.length + 1) s1 env name v with
        | .ok s2 => (.ok v, s2)
        | .error err => (.error err, s1)
      | err => err
    | .varRef name => (envLookup (s.envs.length + 1) s env name, s)
    | .intLit v =>
      match pyStrToInt v with
      | some n => (.ok (.vint n), s)
      | none => (.error .hostValueError, s)
    | .floatLit v =>
      match pyStrToFloat v with
      | some q => (.ok (.vfloat q), s)
      | none => (.error .hostValueError, s)
    | .unOp op expp =>
      if op = "-" then
        match run fuel (.ev expp) env s with
        | (.ok v, s1) => (pyMul (.vint (-1)) v, s1)
        | err => err
      else (.error .unsupportedNode, s)
    | .binOp op l r =>
      match run fuel (.ev l) env s with
      | (.ok lv, s1) =>
        match run fuel (.ev r) env s1 with
        | (.ok rv, s2) => (binOpEval fuel op lv rv, s2)
        | err => err
      | err => err
    | .parens expp => run fuel (.ev expp) env s
    | .ifNode cond then_ elseifBranches else_ =>
      match run fuel (.ev cond) env s with
      | (.ok cv, s1) =>
        if truthy cv then
          let (child, s2) := pushEnv s1 env
          run fuel (.ev then_) child s2
        else
          run fuel (.evElseifs elseifBranches else_) env s1
      | err => err
    | .forNode init condition increment body =>
      match run fuel (.ev init) env s with
      | (.ok _, s1) => run fuel (.evForLoop condition increment body .vnone) env s1
      | err => err
    | .whileNode condition body => run fuel (.evWhileLoop condition body .vnone) env s
    | .printNode expr =>
      match run fuel (.ev expr) env s with
      | (.ok v, s1) => (.ok v, { s1 with output := s1.output ++ [v] })
      | err => err
    | .funcCall name args =>
      match run fuel (.evArgs args []) env s with
      | (.ok (.varr evaluatedArgs), s1) =>
        let func : Option Value :=
          match envLookup (s1.envs.length + 1) s1 env name with
          | .ok v => some v
          | .error _ => none
        match func with
        | some (.vfun params fbody closure) =>
          if evaluatedArgs.length ≠ params.length then (.error (.arityMismatch name), s1)
          else
            let (callEnv, s2) := pushEnv s1 closure
            let s3 := bindParams s2 callEnv params evaluatedArgs
            match run fuel (.ev fbody) callEnv s3 with
            | (.error (.retSignal v), s4) => (.ok v, s4)
            | other => other
        | _ =>
          if name = "max" then (pyMax fuel evaluatedArgs, s1)
          else if name = "min" then (pyMin fuel evaluatedArgs, s1)
          else (.error (.unknownFunction name), s1)
      | (.ok _, s1) => (.error .fuelOut, s1)
      | err => err
    | .returnNode expr =>
      match run fuel (.ev expr) env s with
      | (.ok v, s1) => (.error (.retSignal v), s1)
      | err => err
    | .arrayLit elements => run fuel (.evArgs elements []) env s
    | .arrayIndex array index =>
      match run fuel (.ev array) env s with
      | (.ok av, s1) =>
        match run fuel (.ev index) env s1 with
        | (.ok iv, s2) =>
          if isIntInstance iv then
            match av with
            | .varr xs => (pyIndex xs (valToInt iv - 1), s2)
            | _ => (.error .hostTypeError, s2)
          else (.error .nonIntegerIndex, s2)
        | err => err
      | err => err
  | fuel + 1, .evStmts stmts acc, env, s =>
    match stmts with
    | [] => (.ok acc, s)
    | stmt :: rest =>
      match run fuel (.ev stmt) env s with
      | (.ok v, s1) => run fuel (.evStmts rest v) env s1
      | err => err
  | fuel + 1, .evArgs args acc, env, s =>
    match args with
    | [] => (.ok (.varr acc), s)
    | a :: rest =>
      match run fuel (.ev a) env s with
      | (.ok v, s1) => run fuel (.evArgs rest (acc ++ [v])) env s1
      | err => err
  | fuel + 1, .evForLoop condition increment body acc, env, s =>
    match run fuel (.ev condition) env s with
    | (.ok cv, s1) =>
      if truthy cv then
        let (child, s2) := pushEnv s1 env
        match run fuel (.ev body) child s2 with
        | (.ok bv, s3) =>
          match run fuel (.ev increment) env s3 with
          | (.ok _, s4) => run fuel (.evForLoop condition increment body bv) env s4
          | err => err
        | err => err
      else (.ok acc, s1)
    | err => err
  | fuel + 1, .evWhileLoop condition body acc, env, s =>
    match run fuel (.ev condition) env s with
    | (.ok cv, s1) =>
      if truthy cv then
        match run fuel (.ev body) env s1 with
        | (.ok bv, s2) => run fuel (.evWhileLoop condition body bv) env s2
        | err => err
      else (.ok acc, s1)
    | err => err
  | fuel + 1, .evElseifs branches else_, env, s =>
    match branches with
    | (elseifCond, elseifThen) :: rest =>
      match run fuel (.ev elseifCond) env s with
      | (.ok cv, s1) =>
        if truthy cv then
          let (child, s2) := pushEnv s1 env
          run fuel (.ev elseifThen) child s2
        else run fuel (.evElseifs rest else_) env s1
      | err => err
    | [] =>
      match else_ with
      | some el =>
        let (child, s1) := pushEnv s env
        run fuel (.ev el) child s1
      | none => (.ok .vnone, s)

/-- One call of e(tree, env) against an explicit state. -/
def e (fuel : Nat) (tree : AST) (env : Nat) (s : State) : Except Err Value × State :=
  run fuel (.ev tree) env s

/-- The empty state a top-level e(tree) call starts from: the single fresh
root Environment() and no output yet. -/
def initState : State := ⟨[⟨none, []⟩], []⟩

/-- e(tree) with the env=None default: a fresh empty environment. -/
def evalTop (fuel : Nat) (tree : AST) : Except Err Value × State :=
  e fuel tree 0 initState

/-- Tokens of lexer.py, one constructor per dataclass. -/
inductive Token where
  | intToken (v : String)
  | floatToken (v : String)
  | operatorToken (o : String)
  | keywordToken (w : String)
  | parenToken (w : String)
deriving DecidableEq

/-- The two ValueErrors lexer.py raises, plus the fuel artefact. -/
inductive LexErr where
  | invalidNumber (t : String)
  | unexpectedChar (c : Char)
  | lexFuelOut
deriving DecidableEq

/-- The numeric-literal scan of lexer.py: consume digits and points,
tracking whether a point was seen (isFloat) and whether a second point
invalidated the literal (isValid). -/
def scanNumber (t : List Char) (isFloat isValid : Bool) : List Char → List Char × Bool × Bool × List Char
  | [] => (t, isFloat, isValid, [])
  | c :: rest =>
    if c.isDigit then scanNumber (t ++ [c]) isFloat isValid rest
    else if c = '.' then scanNumber (t ++ [c]) true (isValid && !isFloat) rest
    else (t, isFloat, isValid, c :: rest)

/-- The identifier scan of lexer.py: letters, digits and underscores. -/
def scanIdent (t : List Char) : List Char → List Char × List Char
  | [] => (t, [])
  | c :: rest =>
    if c.isAlphanum || c = '_' then scanIdent (t ++ [c]) rest else (t, c :: rest)

/-- str.isspace restricted to the ASCII whitespace this grammar uses. -/
def isPySpace (c : Char) : Bool := c.isWhitespace

/-- The token loop of lexer.py.  The Python generator is lazy; since the
parser always drains it (parse_program loops until the stream is empty),
materialising the token list is observationally equivalent except that a
lex error in text the parser would reject earlier surfaces as the lex
error instead of the parse error; no claim distinguishes the two.  One
fuel unit covers at least one consumed character, so length+1 fuel always
suffices. -/
def lexF : Nat → List Char → Except LexErr (List Token)
  | 0, _ => .error .lexFuelOut
  | fuel + 1, cs =>
    match cs.dropWhile isPySpace with
    | [] => .ok []
    | c :: rest =>
      if c.isDigit then
        match scanNumber [c] false true rest with
        | (t, isFloat, isValid, rest') =>
          if !isValid then .error (.invalidNumber (String.mk t))
          else
            match lexF fuel rest' with
            | .ok toks =>
              .ok ((if isFloat then Token.floatToken (String.mk t) else Token.intToken (String.mk t)) :: toks)
            | .error err => .error err
      else if c.isAlpha || c = '_' then
        match scanIdent [c] rest with
        | (t, rest') =>
          match lexF fuel rest' with
          | .ok toks => .ok (Token.keywordToken (String.mk t) :: toks)
          | .error err => .error err
      else if c = '(' then
        match lexF fuel rest with
        | .ok toks => .ok (Token.parenToken "(" :: toks)
        | .error err => .error err
      else if c = ')' then
        match lexF fuel rest with
        | .ok toks => .ok (Token.parenToken ")" :: toks)
        | .error err => .error err
      else if c = '{' then
        match lexF fuel rest with
        | .ok toks => .ok (Token.operatorToken "\x7b" :: toks)
        | .error err => .error err
      else if c = '}' then
        match lexF fuel rest with
        | .ok toks => .ok (Token.operatorToken "\x7d" :: toks)
        | .error err => .error err
      else if ['+', '-', '*', '/', '<', '>', '=', '!'].contains c then
        match rest with
        | c2 :: rest2 =>
          if ["<=", ">=", "==", "!=", "**"].contains (String.mk [c, c2]) then
            match lexF fuel rest2 with
            | .ok toks => .ok (Token.operatorToken (String.mk [c, c2]) :: toks)
            | .error err => .error err
          else
            match lexF fuel rest with
            | .ok toks => .ok (Token.operatorToken (String.mk [c]) :: toks)
            | .error err => .error err
        | [] =>
          match lexF fuel rest with
          | .ok toks => .ok (Token.operatorToken (String.mk [c]) :: toks)
          | .error err => .error err
      else if c = ';' then
        match lexF fuel rest with
        | .ok toks => .ok (Token.operatorToken ";" :: toks)
        | .error err => .error err
      else if c = '%' then
        match lexF fuel rest with
        | .ok toks => .ok (Token.operatorToken "%" :: toks)
        | .error err => .error err
      else if c = ',' then
        match lexF fuel rest with
        | .ok toks => .ok (Token.operatorToken "," :: toks)
        | .error err => .error err
      else if c = '[' then
        match lexF fuel rest with
        | .ok toks => .ok (Token.operatorToken "[" :: toks)
        | .error err => .error err
      else if c = ']' then
        match lexF fuel rest with
        | .ok toks => .ok (Token.operatorToken "]" :: toks)
        | .error err => .error err
      else .error (.unexpectedChar c)

/-- lex(s) of lexer.py, materialised. -/
def lex (s : String) : Except LexErr (List Token) := lexF (s.length + 1) s.data

/-- Parser failures: a surfaced lex error, a ParseError (bare ones carry
the empty message), the host IndexError that parse_block raises on an
empty block (statements[0] of an empty list), and the fuel artefact. -/
inductive PErr where
  | lexErr (err : LexErr)
  | parseError (msg : String)
  | phostIndexError
  | pfuelOut
deriving DecidableEq

/-- The expect helper of parse: consume the expected token or fail with a
bare ParseError (also when the stream is exhausted). -/
def expectTok (what : Token) : List Token → Except PErr (List Token)
  | t :: rest => if t = what then .ok rest else .error (.parseError "")
  | [] => .error (.parseError "")

/-- Keywords excluded from atom position and from function names (the
third entry carries a stray leading space, copied verbatim from
parser.py, so the var keyword is in fact not excluded). -/
def atomExcluded : List String :=
  ["agr_teri_maa_chudi_aur", "varna", " madarchod_ye_hai", "and", "or",
   "bol_behen_ke_lund", "for", "jab_tak_teri_maa_chude_aur"]

/-- The (English) words parse_statement rejects as variable names after
the var keyword; none of them is an actual keyword of this grammar. -/
def varNameExcluded : List String :=
  ["if", "else", "var", "for", "while", "and", "or", "print"]

/-- Work items of the recursive-descent parser of parser.py: one
constructor per parse_ function, plus one per while loop written inline
in those functions (each loop constructor carries its accumulator). -/
inductive PTask where
  | comparison
  | logicAnd
  | logicAndLoop (acc : AST)
  | logicOr
  | logicOrLoop (acc : AST)
  | addSub
  | addSubLoop (acc : AST)
  | mulDiv
  | mulDivLoop (acc : AST)
  | expTask
  | ifTask
  | elifLoop (cond thenB : AST) (acc : List (AST × AST))
  | atom
  | postfixLoop (acc : AST)
  | callArgsLoop (fname : String) (acc : List AST)
  | arrElemsLoop (acc : List AST)
  | blockTask
  | blockLoop (acc : List AST)
  | stmtTask
  | paramsTail (fname : String) (acc : List String)
  | defBody (fname : String) (params : List String)
  | programTask
  | programLoop (acc : List AST)

/-- The parser of parser.py over the token list, with one-token lookahead
(pattern matching on the head).  Each task returns the node it built and
the remaining tokens; parse errors abort everything, as exceptions do in
the source.  One fuel unit is spent per task step. -/
def prun : Nat → PTask → List Token → Except PErr (AST × List Token)
  | 0, _, _ => .error .pfuelOut
  | fuel + 1, .comparison, toks =>
    match prun fuel .addSub toks with
    | .ok (l, toks1) =>
      match toks1 with
      | .operatorToken o :: rest =>
        if ["<", "<=", ">", ">=", "==", "!="].contains o then
          match prun fuel .addSub rest with
          | .ok (r, toks2) => .ok (.binOp o l r, toks2)
          | .error err => .error err
        else .ok (l, toks1)
      | _ => .ok (l, toks1)
    | .error err => .error err
  | fuel + 1, .logicAnd, toks =>
    match prun fuel .comparison toks with
    | .ok (l, toks1) => prun fuel (.logicAndLoop l) toks1
    | .error err => .error err
  | fuel + 1, .logicAndLoop acc, toks =>
    match toks with
    | .keywordToken "and" :: rest =>
      match prun fuel .comparison rest with
      | .ok (r, toks1) => prun fuel (.logicAndLoop (.binOp "and" acc r)) toks1
      | .error err => .error err
    | _ => .ok (acc, toks)
  | fuel + 1, .logicOr, toks =>
    match prun fuel .logicAnd toks with
    | .ok (l, toks1) => prun fuel (.logicOrLoop l) toks1
    | .error err => .error err
  | fuel + 1, .logicOrLoop acc, toks =>
    match toks with
    | .keywordToken "or" :: rest =>
      match prun fuel .logicAnd rest with
      | .ok (r, toks1) => prun fuel (.logicOrLoop (.binOp "or" acc r)) toks1
      | .error err => .error err
    | _ => .ok (acc, toks)
  | fuel + 1, .addSub, toks =>
    match prun fuel .mulDiv toks with
    | .ok (l, toks1) => prun fuel (.addSubLoop l) toks1
    | .error err => .error err
  | fuel + 1, .addSubLoop acc, toks =>
    match toks with
    | .operatorToken "+" :: rest =>
      match prun fuel .mulDiv rest with
      | .ok (r, toks1) => prun fuel (.addSubLoop (.binOp "+" acc r)) toks1
      | .error err => .error err
    | .operatorToken "-" :: rest =>
      match prun fuel .mulDiv rest with
      | .ok (r, toks1) => prun fuel (.addSubLoop (.binOp "-" acc r)) toks1
      | .error err => .error err
    | _ => .ok (acc, toks)
  | fuel + 1, .mulDiv, toks =>
    match prun fuel .expTask toks with
    | .ok (l, toks1) => prun fuel (.mulDivLoop l) toks1
    | .error err => .error err
  | fuel + 1, .mulDivLoop acc, toks =>
    match toks with
    | .operatorToken o :: rest =>
      if ["*", "/", "%"].contains o then
        match prun fuel .expTask rest with
        | .ok (r, toks1) => prun fuel (.mulDivLoop (.binOp o acc r)) toks1
        | .error err => .error err
      else .ok (acc, toks)
    | _ => .ok (acc, toks)
  | fuel + 1, .expTask, toks =>
    match prun fuel .ifTask toks with
    | .ok (l, toks1) =>
      match toks1 with
      | .operatorToken "**" :: rest =>
        match prun fuel .ifTask rest with
        | .ok (r, toks2) => .ok (.binOp "**" l r, toks2)
        | .error err => .error err
      | _ => .ok (l, toks1)
    | .error err => .error err
  | fuel + 1, .ifTask, toks =>
    match toks with
    | .keywordToken "agr_teri_maa_chudi_aur" :: rest =>
      match prun fuel .logicOr rest with
      | .ok (cond, toks1) =>
        match prun fuel .blockTask toks1 with
        | .ok (thenB, toks2) => prun fuel (.elifLoop cond thenB []) toks2
        | .error err => .error err
      | .error err => .error err
    | _ => prun fuel .atom toks
  | fuel + 1, .elifLoop cond thenB acc, toks =>
    match toks with
    | .keywordToken "varna" :: rest =>
      match rest with
      | .keywordToken "agr_teri_maa_chudi_aur" :: rest2 =>
        match prun fuel .logicOr rest2 with
        | .ok (elseifCond, toks1) =>
          match prun fuel .blockTask toks1 with
          | .ok (elseifThen, toks2) =>
            prun fuel (.elifLoop cond thenB (acc ++ [(elseifCond, elseifThen)])) toks2
          | .error err => .error err
        | .error err => .error err
      | _ =>
        match prun fuel .blockTask rest with
        | .ok (elseB, toks1) => .ok (.ifNode cond thenB acc (some elseB), toks1)
        | .error err => .error err
    | _ => .ok (.ifNode cond thenB acc none, toks)
  | fuel + 1, .atom, toks =>
    match toks with
    | .intToken v :: rest => prun fuel (.postfixLoop (.intLit v)) rest
    | .floatToken v :: rest => prun fuel (.postfixLoop (.floatLit v)) rest
    | .parenToken "(" :: rest =>
      match prun fuel .logicOr rest with
      | .ok (node, toks1) =>
        match expectTok (.parenToken ")") toks1 with
        | .ok toks2 => prun fuel (.postfixLoop node) toks2
        | .error err => .error err
      | .error err => .error err
    | .operatorToken "-" :: rest =>
      match prun fuel .atom rest with
      | .ok (node, toks1) => prun fuel (.postfixLoop (.unOp "-" node)) toks1
      | .error err => .error err
    | .operatorToken "[" :: rest =>
      match rest with
      | .operatorToken "]" :: rest2 => prun fuel (.postfixLoop (.arrayLit [])) rest2
      | _ =>
        match prun fuel .logicOr rest with
        | .ok (first, toks1) => prun fuel (.arrElemsLoop [first]) toks1
        | .error err => .error err
    | .keywordToken x :: rest =>
      if atomExcluded.contains x then .error (.parseError "Unexpected token in atom")
      else
        match rest with
        | .parenToken "(" :: rest2 =>
          match rest2 with
          | .parenToken ")" :: rest3 => prun fuel (.postfixLoop (.funcCall x [])) rest3
          | _ =>
            match prun fuel .logicOr rest2 with
            | .ok (first, toks1) => prun fuel (.callArgsLoop x [first]) toks1
            | .error err => .error err
        | _ => prun fuel (.postfixLoop (.varRef x)) rest
    | _ => .error (.parseError "Unexpected token in atom")
  | fuel + 1, .arrElemsLoop acc, toks =>
    match toks with
    | .operatorToken "," :: rest =>
      match prun fuel .logicOr rest with
      | .ok (el, toks1) => prun fuel (.arrElemsLoop (acc ++ [el])) toks1
      | .error err => .error err
    | _ =>
      match expectTok (.operatorToken "]") toks with
      | .ok toks1 => prun fuel (.postfixLoop (.arrayLit acc)) toks1
      | .error err => .error err
  | fuel + 1, .callArgsLoop fname acc, toks =>
    match toks with
    | .operatorToken "," :: rest =>
      match prun fuel .logicOr rest with
      | .ok (arg, toks1) => prun fuel (.callArgsLoop fname (acc ++ [arg])) toks1
      | .error err => .error err
    | _ =>
      match expectTok (.parenToken ")") toks with
      | .ok toks1 => prun fuel (.postfixLoop (.funcCall fname acc)) toks1
      | .error _ => .error (.parseError "Unclosed parenthesis in function call")
  | fuel + 1, .postfixLoop acc, toks =>
    match toks with
    | .operatorToken "[" :: rest =>
      match prun fuel .logicOr rest with
      | .ok (indexExpr, toks1) =>
        match expectTok (.operatorToken "]") toks1 with
        | .ok toks2 => prun fuel (.postfixLoop (.arrayIndex acc indexExpr)) toks2
        | .error err => .error err
      | .error err => .error err
    | _ => .ok (acc, toks)
  | fuel + 1, .blockTask, toks =>
    match expectTok (.operatorToken "\x7b") toks with
    | .ok toks1 => prun fuel (.blockLoop []) toks1
    | .error _ => .error (.parseError "Expected opening brace at beginning of block")
  | fuel + 1, .blockLoop acc, toks =>
    match toks with
    | [] =>
      match expectTok (.operatorToken "\x7d") toks with
      | .ok _ => .error .phostIndexError
      | .error _ => .error (.parseError "Missing closing brace after block")
    | .operatorToken "\x7d" :: rest =>
      if acc.length > 1 then .ok (.program acc, rest)
      else
        match acc with
        | [st] => .ok (st, rest)
        | _ => .error .phostIndexError
    | _ =>
      match prun fuel .stmtTask toks with
      | .ok (stmt, toks1) =>
        match toks1 with
        | .operatorToken ";" :: rest => prun fuel (.blockLoop (acc ++ [stmt])) rest
        | _ => prun fuel (.blockLoop (acc ++ [stmt])) toks1
      | .error err => .error err
  | fuel + 1, .stmtTask, toks =>
    match toks with
    | .keywordToken "iski_maa_ki_choot_def" :: rest =>
      match rest with
      | .keywordToken w :: rest1 =>
        if atomExcluded.contains w then .error (.parseError "Expected function name after def")
        else
          match expectTok (.parenToken "(") rest1 with
          | .ok rest2 =>
            match rest2 with
            | .parenToken ")" :: _ => prun fuel (.defBody w []) rest2
            | .keywordToken p :: rest3 => prun fuel (.paramsTail w [p]) rest3
            | _ => .error (.parseError "Expected parameter name")
          | .error _ => .error (.parseError "Expected ( after function name")
      | _ => .error (.parseError "Expected function name after def")
    | .keywordToken "chod_de" :: rest =>
      match prun fuel .logicOr rest with
      | .ok (expr, toks1) => .ok (.returnNode expr, toks1)
      | .error err => .error err
    | .keywordToken "bol_behen_ke_lund" :: rest =>
      match expectTok (.parenToken "(") rest with
      | .ok rest1 =>
        match prun fuel .logicOr rest1 with
        | .ok (expr, toks1) =>
          match expectTok (.parenToken ")") toks1 with
          | .ok toks2 => .ok (.printNode expr, toks2)
          | .error _ => .error (.parseError "Expected ) after print argument")
        | .error err => .error err
      | .error _ => .error (.parseError "Expected ( after print")
    | .keywordToken "for" :: rest =>
      match expectTok (.parenToken "(") rest with
      | .ok rest1 =>
        match prun fuel .stmtTask rest1 with
        | .ok (init, toks1) =>
          match expectTok (.operatorToken ";") toks1 with
          | .ok toks2 =>
            match prun fuel .logicOr toks2 with
            | .ok (condition, toks3) =>
              match expectTok (.operatorToken ";") toks3 with
              | .ok toks4 =>
                match prun fuel .stmtTask toks4 with
                | .ok (increment, toks5) =>
                  match expectTok (.parenToken ")") toks5 with
                  | .ok toks6 =>
                    match prun fuel .blockTask toks6 with
                    | .ok (body, toks7) => .ok (.forNode init condition increment body, toks7)
                    | .error err => .error err
                  | .error _ => .error (.parseError "Expected ) after for-loop increment")
                | .error err => .error err
              | .error _ => .error (.parseError "Expected semicolon after for-loop condition")
            | .error err => .error err
          | .error _ => .error (.parseError "Expected semicolon after for-loop initializer")
        | .error err => .error err
      | .error _ => .error (.parseError "Expected ( after for")
    | .keywordToken "jab_tak_teri_maa_chude_aur" :: rest =>
      match expectTok (.parenToken "(") rest with
      | .ok rest1 =>
        match prun fuel .logicOr rest1 with
        | .ok (condition, toks1) =>
          match expectTok (.parenToken ")") toks1 with
          | .ok toks2 =>
            match prun fuel .blockTask toks2 with
            | .ok (body, toks3) => .ok (.whileNode condition body, toks3)
            | .error err => .error err
          | .error _ => .error (.parseError "Expected ) after while-loop condition")
        | .error err => .error err
      | .error _ => .error (.parseError "Expected ( after while")
    | .keywordToken "madarchod_ye_hai" :: rest =>
      match rest with
      | .keywordToken w :: rest1 =>
        if varNameExcluded.contains w then .error (.parseError "Expected variable name after var")
        else
          match expectTok (.operatorToken "=") rest1 with
          | .ok rest2 =>
            match prun fuel .logicOr rest2 with
            | .ok (expr, toks1) => .ok (.varDecl w expr, toks1)
            | .error err => .error err
          | .error _ => .error (.parseError "Expected = after variable name in declaration")
      | _ => .error (.parseError "Expected variable name after var")
    | _ =>
      match prun fuel .logicOr toks with
      | .ok (expr, toks1) =>
        match expr, toks1 with
        | .varRef name, .operatorToken "=" :: rest =>
          match prun fuel .logicOr rest with
          | .ok (rhs, toks2) => .ok (.assignNode name rhs, toks2)
          | .error err => .error err
        | _, _ => .ok (expr, toks1)
      | .error err => .error err
  | fuel + 1, .paramsTail fname acc, toks =>
    match toks with
    | .operatorToken "," :: rest =>
      match rest with
      | .keywordToken p :: rest1 => prun fuel (.paramsTail fname (acc ++ [p])) rest1
      | _ => .error (.parseError "Expected parameter name")
    | _ => prun fuel (.defBody fname acc) toks
  | fuel + 1, .defBody fname params, toks =>
    match expectTok (.parenToken ")") toks with
    | .ok toks1 =>
      match prun fuel .blockTask toks1 with
      | .ok (body, toks2) => .ok (.funcDef fname params body, toks2)
      | .error err => .error err
    | .error _ => .error (.parseError "Expected ) after parameter list")
  | fuel + 1, .programTask, toks => prun fuel (.programLoop []) toks
  | fuel + 1, .programLoop acc, toks =>
    match toks with
    | [] =>
      match acc with
      | [st] => .ok (st, [])
      | _ => .ok (.program acc, [])
    | _ =>
      match prun fuel .stmtTask toks with
      | .ok (stmt, toks1) =>
        match toks1 with
        | .operatorToken ";" :: rest => prun fuel (.programLoop (acc ++ [stmt])) rest
        | _ => prun fuel (.programLoop (acc ++ [stmt])) toks1
      | .error err => .error err

/-- parse(s) of parser.py: lex, then parse_program over the token stream. -/
def parse (fuel : Nat) (s : String) : Except PErr AST :=
  match lex s with
  | .error le => .error (.lexErr le)
  | .ok toks =>
    match prun fuel .programTask toks with
    | .ok (a, _) => .ok a
    | .error err => .error err

/-- Numeric value of a Value under the rational view (0 for non-numbers;
only applied to numbers). -/
def toQv (v : Value) : Rat :=
  match toNum v with
  | some n => n.toQ
  | none => 0

/-- Every element of the list is a number (int, bool or float). -/
def allNum (vs : List Value) : Bool := vs.all (fun v => (toNum v).isSome)

theorem int_fmod_eq_zero_iff_dvd (a b : Int) : a.fmod b = 0 ↔ b ∣ a := by
  constructor
  · intro h
    refine ⟨a.fdiv b, ?_⟩
    have h2 := Int.fmod_add_fdiv a b
    rw [h, Int.zero_add] at h2
    exact h2.symm
  · rintro ⟨c, rfl⟩
    exact Int.mul_fmod_right b c

/-- C1.  The ArrayIndex case of top.py does `arr[idx - 1]` with no bounds
check of its own: on the three-element array [10, 20, 30], index 0 maps to
the host subscript -1 and returns the last element 30 instead of failing,
index 4 raises the bare host IndexError rather than an evaluator-raised
error, index 2 returns the second element (1-based indexing), and the
out-of-range index -1 also succeeds with 20 via host negative indexing.
This contradicts the claim that exactly the indices 1..n succeed and that
out-of-range indices fail with an evaluator-raised IndexOutOfRange. -/
theorem c1_array_index_wraps_and_host_error :
    (evalTop 30 (.arrayIndex (.arrayLit [.intLit "10", .intLit "20", .intLit "30"]) (.intLit "0"))).1
        = .ok (.vint 30)
      ∧ (evalTop 30 (.arrayIndex (.arrayLit [.intLit "10", .intLit "20", .intLit "30"]) (.intLit "4"))).1
        = .error .hostIndexError
      ∧ (evalTop 30 (.arrayIndex (.arrayLit [.intLit "10", .intLit "20", .intLit "30"]) (.intLit "2"))).1
        = .ok (.vint 20)
      ∧ (evalTop 30 (.arrayIndex (.arrayLit [.intLit "10", .intLit "20", .intLit "30"]) (.intLit "-1"))).1
        = .ok (.vint 20) :=
  ⟨rfl, rfl, rfl, rfl⟩

/-- C2, counterexample.  On the input `agr_teri_maa_chudi_aur 1 { }` (an
if statement whose block holds zero statements) parse neither returns an
AST nor raises a ParseError or LexError: parse_block evaluates
statements[0] of the empty list and the host IndexError escapes.  This
refutes both "no other kind of exception escapes parse" and "a block
containing zero statements collapses". -/
theorem c2_parse_counterexample_empty_block :
    parse 100 "agr_teri_maa_chudi_aur 1 \x7b \x7d" = .error .phostIndexError := rfl

/-- C2, amended.  parse returns one AST root or a ParseError/LexError for
the other inputs considered: a single-statement block collapses to that
statement, a multi-statement block becomes one Program node, a one-
statement source is returned bare while several top-level statements (or
none) are wrapped in a Program, an unmatched parenthesis is a ParseError,
and an invalid numeric literal surfaces as the LexError; but a
brace-delimited block with zero statements raises the host IndexError. -/
theorem c2_parse_amended :
    parse 100 "agr_teri_maa_chudi_aur 1 \x7b 5 \x7d" = .ok (.ifNode (.intLit "1") (.intLit "5") [] none)
      ∧ parse 100 "agr_teri_maa_chudi_aur 1 \x7b 5; 6 \x7d"
        = .ok (.ifNode (.intLit "1") (.program [.intLit "5", .intLit "6"]) [] none)
      ∧ parse 100 "5 + 3" = .ok (.binOp "+" (.intLit "5") (.intLit "3"))
      ∧ parse 100 "5; 6" = .ok (.program [.intLit "5", .intLit "6"])
      ∧ parse 100 "" = .ok (.program [])
      ∧ parse 100 "(5" = .error (.parseError "")
      ∧ parse 100 "1.2.3" = .error (.lexErr (.invalidNumber "1.2.3"))
      ∧ parse 100 "agr_teri_maa_chudi_aur 1 \x7b \x7d" = .error .phostIndexError :=
  ⟨rfl, rfl, rfl, rfl, rfl, rfl, rfl, rfl⟩

/-- C3.  For integer operands a and b with b nonzero, the / case of BinOp
returns an int quotient q with q*b == a exactly when b divides a, and the
exact rational (real-valued) quotient a/b otherwise.  The hypotheses say
the two operand subtrees evaluate to the Python ints a and b. -/
theorem c3_integer_division (fuel : Nat) (l r : AST) (env : Nat) (s s1 s2 : State) (a b : Int)
    (hb : b ≠ 0)
    (hl : run fuel (.ev l) env s = (.ok (.vint a), s1))
    (hr : run fuel (.ev r) env s1 = (.ok (.vint b), s2)) :
    (b ∣ a → ∃ q : Int, run (fuel + 1) (.ev (.binOp "/" l r)) env s = (.ok (.vint q), s2) ∧ q * b = a)
      ∧ (¬ b ∣ a → run (fuel + 1) (.ev (.binOp "/" l r)) env s
          = (.ok (.vfloat ((a : Rat) / (b : Rat))), s2)) := by
  have hbq : ((b : Rat)) ≠ 0 := by exact_mod_cast hb
  constructor
  · intro hdvd
    have hm : Int.fmod a b = 0 := (int_fmod_eq_zero_iff_dvd a b).mpr hdvd
    refine ⟨a.fdiv b, ?_, ?_⟩
    · simp only [run, hl, hr, binOpEval, pyDivOp, toNum, isIntInstance, numMod, numFloorDiv,
        NumV.toQ, numToValue, hm]
      norm_num [hbq]
    · have h2 := Int.fmod_add_fdiv a b
      rw [hm, Int.zero_add] at h2
      rw [Int.mul_comm]
      exact h2
  · intro hnd
    have hm : Int.fmod a b ≠ 0 := fun h => hnd ((int_fmod_eq_zero_iff_dvd a b).mp h)
    have hmq : ((Int.fmod a b : Int) : Rat) ≠ 0 := by exact_mod_cast hm
    simp only [run, hl, hr, binOpEval, pyDivOp, toNum, isIntInstance, numMod, numFloorDiv,
      NumV.toQ, numToValue]
    norm_num [hbq, hmq]

/-- C3 witness: 8 / 2 at the evaluator, with both hypotheses discharged on
the literal subtrees. -/
theorem c3_integer_division_witness :
    ((2 : Int) ∣ 8 → ∃ q : Int,
        run 6 (.ev (.binOp "/" (.intLit "8") (.intLit "2"))) 0 initState = (.ok (.vint q), initState)
          ∧ q * 2 = 8)
      ∧ (¬ (2 : Int) ∣ 8 → run 6 (.ev (.binOp "/" (.intLit "8") (.intLit "2"))) 0 initState
          = (.ok (.vfloat ((8 : Rat) / (2 : Rat))), initState)) :=
  c3_integer_division 5 (.intLit "8") (.intLit "2") 0 initState initState initState 8 2
    (by decide) rfl rfl

/-- C4.  Scoping, for arbitrary initial values a of the outer variable y
and b of the helper variable b (pre-seeded in the root environment): a
var declaration of x inside an if branch body or a for loop body is gone
afterwards (looking x up after the construct is the UndefinedVariable
error), while an assignment inside the same nested child scope to the
outer-declared y mutates the outer binding to b, visible after exit. -/
theorem c4_scoping_if_for (a b : Int) :
    (e 30 (.program [.ifNode (.intLit "1")
          (.program [.varDecl "x" (.varRef "b"), .assignNode "y" (.varRef "x")]) [] none,
        .varRef "y"]) 0 ⟨[⟨none, [("y", .vint a), ("b", .vint b)]⟩], []⟩).1 = .ok (.vint b)
    ∧ (e 30 (.program [.ifNode (.intLit "1")
          (.program [.varDecl "x" (.varRef "b"), .assignNode "y" (.varRef "x")]) [] none,
        .varRef "x"]) 0 ⟨[⟨none, [("y", .vint a), ("b", .vint b)]⟩], []⟩).1
      = .error (.undefinedVariable "x")
    ∧ (e 40 (.program [.forNode (.varDecl "i" (.intLit "0"))
          (.binOp "<" (.varRef "i") (.intLit "1"))
          (.assignNode "i" (.binOp "+" (.varRef "i") (.intLit "1")))
          (.program [.varDecl "x" (.varRef "b"), .assignNode "y" (.varRef "x")]),
        .varRef "y"]) 0 ⟨[⟨none, [("y", .vint a), ("b", .vint b)]⟩], []⟩).1 = .ok (.vint b)
    ∧ (e 40 (.program [.forNode (.varDecl "i" (.intLit "0"))
          (.binOp "<" (.varRef "i") (.intLit "1"))
          (.assignNode "i" (.binOp "+" (.varRef "i") (.intLit "1")))
          (.program [.varDecl "x" (.varRef "b"), .assignNode "y" (.varRef "x")]),
        .varRef "x"]) 0 ⟨[⟨none, [("y", .vint a), ("b", .vint b)]⟩], []⟩).1
      = .error (.undefinedVariable "x") :=
  ⟨rfl, rfl, rfl, rfl⟩

/-- C5.  For/While scoping asymmetry.  For: the initializer runs once in
the current scope (i is still visible, as 2, after the loop), condition
and increment run in that outer scope, and the body runs in a fresh child
scope each iteration: the body redeclaration of c as 99 never survives to
the next iteration, so x accumulates outer c = 10 twice (20), and outer c
is still 10 afterwards.  While: the body runs in the current scope across
iterations, so the body redeclaration of c overwrites the outer c; the
second iteration adds 99 (y ends at 109) and c is 99 after the loop. -/
theorem c5_for_fresh_scope_while_shared :
    (evalTop 100 (.program [.varDecl "x" (.intLit "0"), .varDecl "c" (.intLit "10"),
        .forNode (.varDecl "i" (.intLit "0")) (.binOp "<" (.varRef "i") (.intLit "2"))
          (.assignNode "i" (.binOp "+" (.varRef "i") (.intLit "1")))
          (.program [.assignNode "x" (.binOp "+" (.varRef "x") (.varRef "c")),
                     .varDecl "c" (.intLit "99")]),
        .arrayLit [.varRef "x", .varRef "c", .varRef "i"]])).1
      = .ok (.varr [.vint 20, .vint 10, .vint 2])
    ∧ (evalTop 100 (.program [.varDecl "c" (.intLit "10"), .varDecl "y" (.intLit "0"),
        .varDecl "x" (.intLit "0"),
        .whileNode (.binOp "<" (.varRef "x") (.intLit "2"))
          (.program [.assignNode "y" (.binOp "+" (.varRef "y") (.varRef "c")),
                     .varDecl "c" (.intLit "99"),
                     .assignNode "x" (.binOp "+" (.varRef "x") (.intLit "1"))]),
        .arrayLit [.varRef "y", .varRef "c", .varRef "x"]])).1
      = .ok (.varr [.vint 109, .vint 99, .vint 2]) :=
  ⟨rfl, rfl⟩

/-- C6.  A BinOp always evaluates the left operand then the right operand
before combining them, for every operator including logical and/or: the
hypotheses describe the two operand evaluations, and the conclusion says
the whole BinOp ends in the state s2 that includes the side effects of
both, whatever op and the left value are (no short-circuiting). -/
theorem c6_binop_unconditional_evaluation (fuel : Nat) (op : String) (l r : AST) (env : Nat)
    (s s1 s2 : State) (lv rv : Value)
    (hl : run fuel (.ev l) env s = (.ok lv, s1))
    (hr : run fuel (.ev r) env s1 = (.ok rv, s2)) :
    run (fuel + 1) (.ev (.binOp op l r)) env s = (binOpEval fuel op lv rv, s2) := by
  simp only [run, hl, hr]

/-- C6 witness: 0 and print(5) style — both prints happen even though the
falsy left operand alone decides the outcome, and the result is the left
operand as Python and returns it. -/
theorem c6_binop_unconditional_evaluation_witness :
    run 10 (.ev (.binOp "and" (.printNode (.intLit "0")) (.printNode (.intLit "5")))) 0 initState
      = (.ok (.vint 0), ⟨[⟨none, []⟩], [.vint 0, .vint 5]⟩) :=
  c6_binop_unconditional_evaluation 9 "and" (.printNode (.intLit "0")) (.printNode (.intLit "5"))
    0 initState ⟨[⟨none, []⟩], [.vint 0]⟩ ⟨[⟨none, []⟩], [.vint 0, .vint 5]⟩ (.vint 0) (.vint 5)
    rfl rfl

theorem list_getD_length_eq_getLast (x : Value) (rest : List Value) :
    (x :: rest).getD rest.length .vnone = (x :: rest).getLast (List.cons_ne_nil x rest) := by
  induction rest generalizing x with
  | nil => rfl
  | cons y ys ih =>
    rw [List.length_cons, List.getD_cons_succ, ih y]
    exact (List.getLast_cons (List.cons_ne_nil y ys)).symm

theorem pyIndex_zero (x : Value) (rest : List Value) : pyIndex (x :: rest) 0 = .ok x := by
  simp [pyIndex]

theorem pyIndex_neg_one (x : Value) (rest : List Value) :
    pyIndex (x :: rest) (-1) = .ok ((x :: rest).getLast (List.cons_ne_nil x rest)) := by
  rw [pyIndex]
  rw [if_neg (by omega), if_pos (by constructor <;> [simp; omega])]
  have h : ((-1 : Int) + ((x :: rest).length : Int)).toNat = rest.length := by simp
  rw [h, list_getD_length_eq_getLast]

/-- C8, amended.  The ArrayIndex case accepts exactly the host-int-typed
index values: a float index fails with the NonIntegerIndex ValueError even
when its value is integral (isinstance(2.0, int) is false in Python),
while int and bool indices are accepted and subscript the array at
index - 1. -/
theorem c8_index_type_amended (fuel : Nat) (arrA idxA : AST) (env : Nat) (s s1 s2 : State)
    (xs : List Value)
    (ha : run fuel (.ev arrA) env s = (.ok (.varr xs), s1)) :
    (∀ q : Rat, run fuel (.ev idxA) env s1 = (.ok (.vfloat q), s2) →
        run (fuel + 1) (.ev (.arrayIndex arrA idxA)) env s = (.error .nonIntegerIndex, s2))
      ∧ (∀ n : Int, run fuel (.ev idxA) env s1 = (.ok (.vint n), s2) →
        run (fuel + 1) (.ev (.arrayIndex arrA idxA)) env s = (pyIndex xs (n - 1), s2))
      ∧ (∀ bb : Bool, run fuel (.ev idxA) env s1 = (.ok (.vbool bb), s2) →
        run (fuel + 1) (.ev (.arrayIndex arrA idxA)) env s
          = (pyIndex xs ((if bb then 1 else 0) - 1), s2)) := by
  refine ⟨fun q hq => ?_, fun n hn => ?_, fun bb hb => ?_⟩
  · simp only [run, ha, hq, isIntInstance]
    simp
  · simp only [run, ha, hn, isIntInstance, valToInt]
    simp
  · simp only [run, ha, hb, isIntInstance, valToInt]
    simp

/-- C8, counterexample to the original claim: indexing [1, 2, 3] with the
real literal 2.0 (an integer-valued number) is rejected with
NonIntegerIndex instead of returning the second element. -/
theorem c8_float_index_counterexample :
    (evalTop 30 (.arrayIndex (.arrayLit [.intLit "1", .intLit "2", .intLit "3"])
        (.floatLit "2.0"))).1 = .error .nonIntegerIndex := rfl

/-- C8 witness: the float branch of the amended theorem applied to the
2.0 literal over [1, 2, 3]. -/
theorem c8_index_type_amended_witness :
    run 10 (.ev (.arrayIndex (.arrayLit [.intLit "1", .intLit "2", .intLit "3"])
        (.floatLit "2.0"))) 0 initState = (.error .nonIntegerIndex, initState) :=
  (c8_index_type_amended 9 (.arrayLit [.intLit "1", .intLit "2", .intLit "3"])
      (.floatLit "2.0") 0 initState initState initState [.vint 1, .vint 2, .vint 3] rfl).1
    2 (by with_unfolding_all rfl)

/-- C9.  A comparison result (a Python bool) is accepted as an array
index: isinstance(True, int) holds, so no NonIntegerIndex is raised; True
acts as the int 1, giving the first element of any non-empty array, and
False acts as the int 0, giving host subscript -1, the last element.  The
last two conjuncts run this end to end with 1 == 1 and 1 == 2 as index
expressions over [10, 20, 30]. -/
theorem c9_bool_index :
    (∀ (fuel : Nat) (arrA idxA : AST) (env : Nat) (s s1 s2 : State) (x : Value) (rest : List Value),
      run fuel (.ev arrA) env s = (.ok (.varr (x :: rest)), s1) →
      run fuel (.ev idxA) env s1 = (.ok (.vbool true), s2) →
      run (fuel + 1) (.ev (.arrayIndex arrA idxA)) env s = (.ok x, s2))
    ∧ (∀ (fuel : Nat) (arrA idxA : AST) (env : Nat) (s s1 s2 : State) (x : Value) (rest : List Value),
      run fuel (.ev arrA) env s = (.ok (.varr (x :: rest)), s1) →
      run fuel (.ev idxA) env s1 = (.ok (.vbool false), s2) →
      run (fuel + 1) (.ev (.arrayIndex arrA idxA)) env s
        = (.ok ((x :: rest).getLast (List.cons_ne_nil x rest)), s2))
    ∧ (evalTop 30 (.arrayIndex (.arrayLit [.intLit "10", .intLit "20", .intLit "30"])
        (.binOp "==" (.intLit "1") (.intLit "1")))).1 = .ok (.vint 10)
    ∧ (evalTop 30 (.arrayIndex (.arrayLit [.intLit "10", .intLit "20", .intLit "30"])
        (.binOp "==" (.intLit "1") (.intLit "2")))).1 = .ok (.vint 30) := by
  refine ⟨?_, ?_, rfl, rfl⟩
  · intro fuel arrA idxA env s s1 s2 x rest ha hi
    simp only [run, ha, hi, isIntInstance, valToInt]
    norm_num [pyIndex_zero]
  · intro fuel arrA idxA env s s1 s2 x rest ha hi
    simp only [run, ha, hi, isIntInstance, valToInt]
    norm_num [pyIndex_neg_one]

/-- C9 witness: the True branch on [7, 8] with the literal comparison
1 == 1 as the index expression. -/
theorem c9_bool_index_witness :
    run 10 (.ev (.arrayIndex (.arrayLit [.intLit "7", .intLit "8"])
        (.binOp "==" (.intLit "1") (.intLit "1")))) 0 initState = (.ok (.vint 7), initState) :=
  c9_bool_index.1 9 (.arrayLit [.intLit "7", .intLit "8"])
    (.binOp "==" (.intLit "1") (.intLit "1")) 0 initState initState initState
    (.vint 7) [.vint 8] rfl rfl

/-- C10.  A Return node raises the internal ReturnException signal: when
its expression evaluates to v, the node itself ends as the retSignal v
error, and with nothing catching it (no enclosing FunctionCall) the
signal propagates out of a top-level Program unchanged — it is not
converted to any of the evaluator-raised ValueErrors, and evaluation
yields no ok value.  The last conjunct runs `return 5` at top level. -/
theorem c10_top_level_return :
    (∀ (fuel : Nat) (expr : AST) (env : Nat) (s : State) (v : Value) (s1 : State),
      run fuel (.ev expr) env s = (.ok v, s1) →
      run (fuel + 1) (.ev (.returnNode expr)) env s = (.error (.retSignal v), s1))
    ∧ (∀ (fuel : Nat) (expr : AST) (env : Nat) (s : State) (v : Value) (s1 : State),
      run fuel (.ev expr) env s = (.ok v, s1) →
      run (fuel + 3) (.ev (.program [.returnNode expr])) env s = (.error (.retSignal v), s1))
    ∧ (evalTop 30 (.program [.returnNode (.intLit "5")])).1 = .error (.retSignal (.vint 5)) := by
  refine ⟨?_, ?_, rfl⟩
  · intro fuel expr env s v s1 h
    simp only [run, h]
  · intro fuel expr env s v s1 h
    show run (fuel + 2 + 1) _ _ _ = _
    simp only [run, h]

/-- C10 witness: return 7 inside a top-level program. -/
theorem c10_top_level_return_witness :
    run 8 (.ev (.program [.returnNode (.intLit "7")])) 0 initState
      = (.error (.retSignal (.vint 7)), initState) :=
  c10_top_level_return.2.1 5 (.intLit "7") 0 initState (.vint 7) initState rfl

theorem toQv_eq (v : Value) (nv : NumV) (h : toNum v = some nv) : toQv v = nv.toQ := by
  simp [toQv, h]

theorem pyCmpF_num (fuel : Nat) (v w : Value) (nv nw : NumV)
    (hv : toNum v = some nv) (hw : toNum w = some nw) :
    pyCmpF (fuel + 1) v w
      = .ok (if nv.toQ < nw.toQ then .lt else if nw.toQ < nv.toQ then .gt else .eq) := by
  simp only [pyCmpF, hv, hw]

/-- The max fold keeps the running maximum: over numeric values it
succeeds with an element that is an upper bound of everything folded. -/
theorem pyMaxFold_spec (fuel : Nat) (vs : List Value) : ∀ acc : Value,
    (toNum acc).isSome → allNum vs →
    ∃ m, pyMaxFold (fuel + 1) acc vs = .ok m ∧ m ∈ acc :: vs ∧ toQv acc ≤ toQv m
      ∧ ∀ w ∈ vs, toQv w ≤ toQv m := by
  induction vs with
  | nil =>
    intro acc hacc _
    exact ⟨acc, rfl, List.mem_cons_self acc [], le_refl _, by simp⟩
  | cons v vs' ih =>
    intro acc hacc hall
    obtain ⟨na, hna⟩ := Option.isSome_iff_exists.mp hacc
    have hall' : (toNum v).isSome = true ∧ allNum vs' = true := by
      simpa [allNum] using hall
    obtain ⟨nv, hnv⟩ := Option.isSome_iff_exists.mp hall'.1
    have hcmp := pyCmpF_num fuel v acc nv na hnv hna
    by_cases h1 : nv.toQ < na.toQ
    · obtain ⟨m, hm, hmem, hle, hbound⟩ := ih acc hacc hall'.2
      refine ⟨m, ?_, ?_, hle, ?_⟩
      · rw [pyMaxFold, hcmp, if_pos h1]
        exact hm
      · rcases List.mem_cons.mp hmem with h | h
        · exact h ▸ List.mem_cons_self acc _
        · exact List.mem_cons_of_mem acc (List.mem_cons_of_mem v h)
      · intro w hw
        rcases List.mem_cons.mp hw with h | h
        · rw [h, toQv_eq v nv hnv]
          calc nv.toQ ≤ na.toQ := le_of_lt h1
            _ = toQv acc := (toQv_eq acc na hna).symm
            _ ≤ toQv m := hle
        · exact hbound w h
    · by_cases h2 : na.toQ < nv.toQ
      · obtain ⟨m, hm, hmem, hle, hbound⟩ := ih v hall'.1 hall'.2
        refine ⟨m, ?_, ?_, ?_, ?_⟩
        · rw [pyMaxFold, hcmp, if_neg h1, if_pos h2]
          exact hm
        · exact List.mem_cons_of_mem acc hmem
        · calc toQv acc = na.toQ := toQv_eq acc na hna
            _ ≤ nv.toQ := le_of_lt h2
            _ = toQv v := (toQv_eq v nv hnv).symm
            _ ≤ toQv m := hle
        · intro w hw
          rcases List.mem_cons.mp hw with h | h
          · exact h ▸ hle
          · exact hbound w h
      · have heq : nv.toQ = na.toQ := le_antisymm (not_lt.mp h2) (not_lt.mp h1)
        obtain ⟨m, hm, hmem, hle, hbound⟩ := ih acc hacc hall'.2
        refine ⟨m, ?_, ?_, hle, ?_⟩
        · rw [pyMaxFold, hcmp, if_neg h1, if_neg h2]
          exact hm
        · rcases List.mem_cons.mp hmem with h | h
          · exact h ▸ List.mem_cons_self acc _
          · exact List.mem_cons_of_mem acc (List.mem_cons_of_mem v h)
        · intro w hw
          rcases List.mem_cons.mp hw with h | h
          · rw [h, toQv_eq v nv hnv, heq]
            calc na.toQ = toQv acc := (toQv_eq acc na hna).symm
              _ ≤ toQv m := hle
          · exact hbound w h

theorem pyMax_two (fuel : Nat) (v1 v2 : Value) (vs : List Value) :
    pyMax fuel (v1 :: v2 :: vs) = pyMaxFold fuel v1 (v2 :: vs) := by
  cases v1 <;> first
  | rfl
  | (rename_i elems; cases elems <;> rfl)

/-- The min fold keeps the running minimum: over numeric values it
succeeds with an element that is a lower bound of everything folded. -/
theorem pyMinFold_spec (fuel : Nat) (vs : List Value) : ∀ acc : Value,
    (toNum acc).isSome → allNum vs →
    ∃ m, pyMinFold (fuel + 1) acc vs = .ok m ∧ m ∈ acc :: vs ∧ toQv m ≤ toQv acc
      ∧ ∀ w ∈ vs, toQv m ≤ toQv w := by
  induction vs with
  | nil =>
    intro acc hacc _
    exact ⟨acc, rfl, List.mem_cons_self acc [], le_refl _, by simp⟩
  | cons v vs' ih =>
    intro acc hacc hall
    obtain ⟨na, hna⟩ := Option.isSome_iff_exists.mp hacc
    have hall' : (toNum v).isSome = true ∧ allNum vs' = true := by
      simpa [allNum] using hall
    obtain ⟨nv, hnv⟩ := Option.isSome_iff_exists.mp hall'.1
    have hcmp := pyCmpF_num fuel v acc nv na hnv hna
    by_cases h1 : nv.toQ < na.toQ
    · obtain ⟨m, hm, hmem, hle, hbound⟩ := ih v hall'.1 hall'.2
      refine ⟨m, ?_, ?_, ?_, ?_⟩
      · rw [pyMinFold, hcmp, if_pos h1]
        exact hm
      · exact List.mem_cons_of_mem acc hmem
      · calc toQv m ≤ toQv v := hle
          _ = nv.toQ := toQv_eq v nv hnv
          _ ≤ na.toQ := le_of_lt h1
          _ = toQv acc := (toQv_eq acc na hna).symm
      · intro w hw
        rcases List.mem_cons.mp hw with h | h
        · exact h ▸ hle
        · exact hbound w h
    · by_cases h2 : na.toQ < nv.toQ
      · obtain ⟨m, hm, hmem, hle, hbound⟩ := ih acc hacc hall'.2
        refine ⟨m, ?_, ?_, hle, ?_⟩
        · rw [pyMinFold, hcmp, if_neg h1, if_pos h2]
          exact hm
        · rcases List.mem_cons.mp hmem with h | h
          · exact h ▸ List.mem_cons_self acc _
          · exact List.mem_cons_of_mem acc (List.mem_cons_of_mem v h)
        · intro w hw
          rcases List.mem_cons.mp hw with h | h
          · rw [h, toQv_eq v nv hnv]
            calc toQv m ≤ toQv acc := hle
              _ = na.toQ := toQv_eq acc na hna
              _ ≤ nv.toQ := le_of_lt h2
          · exact hbound w h
      · have heq : nv.toQ = na.toQ := le_antisymm (not_lt.mp h2) (not_lt.mp h1)
        obtain ⟨m, hm, hmem, hle, hbound⟩ := ih acc hacc hall'.2
        refine ⟨m, ?_, ?_, hle, ?_⟩
        · rw [pyMinFold, hcmp, if_neg h1, if_neg h2]
          exact hm
        · rcases List.mem_cons.mp hmem with h | h
          · exact h ▸ List.mem_cons_self acc _
          · exact List.mem_cons_of_mem acc (List.mem_cons_of_mem v h)
        · intro w hw
          rcases List.mem_cons.mp hw with h | h
          · rw [h, toQv_eq v nv hnv, heq]
            calc toQv m ≤ toQv acc := hle
              _ = na.toQ := toQv_eq acc na hna
          · exact hbound w h

theorem pyMin_two (fuel : Nat) (v1 v2 : Value) (vs : List Value) :
    pyMin fuel (v1 :: v2 :: vs) = pyMinFold fuel v1 (v2 :: vs) := by
  cases v1 <;> first
  | rfl
  | (rename_i elems; cases elems <;> rfl)

/-- C7, amended.  A FunctionCall whose name resolves to no binding
dispatches on the name: any name other than max and min fails with the
UnknownFunction ValueError; max (respectively min) applied to two or more
numeric values returns one of them that is numerically greatest
(respectively least).  With exactly one argument Python unpacking applies
instead (see the counterexample).  The last conjuncts run max and min end
to end on 5, 9, 7. -/
theorem c7_builtins_amended :
    (∀ (fuel : Nat) (name : String) (args : List AST) (env : Nat) (s s1 : State)
        (evArgs : List Value),
      run fuel (.evArgs args []) env s = (.ok (.varr evArgs), s1) →
      envLookup (s1.envs.length + 1) s1 env name = .error (.undefinedVariable name) →
      name ≠ "max" → name ≠ "min" →
      run (fuel + 1) (.ev (.funcCall name args)) env s = (.error (.unknownFunction name), s1))
    ∧ (∀ (fuel : Nat) (v1 v2 : Value) (vs : List Value), allNum (v1 :: v2 :: vs) →
      ∃ m, pyMax (fuel + 1) (v1 :: v2 :: vs) = .ok m ∧ m ∈ v1 :: v2 :: vs
        ∧ ∀ w ∈ v1 :: v2 :: vs, toQv w ≤ toQv m)
    ∧ (∀ (fuel : Nat) (v1 v2 : Value) (vs : List Value), allNum (v1 :: v2 :: vs) →
      ∃ m, pyMin (fuel + 1) (v1 :: v2 :: vs) = .ok m ∧ m ∈ v1 :: v2 :: vs
        ∧ ∀ w ∈ v1 :: v2 :: vs, toQv m ≤ toQv w)
    ∧ (evalTop 30 (.funcCall "max" [.intLit "5", .intLit "9", .intLit "7"])).1 = .ok (.vint 9)
    ∧ (evalTop 30 (.funcCall "min" [.intLit "5", .intLit "9", .intLit "7"])).1 = .ok (.vint 5) := by
  refine ⟨?_, ?_, ?_, rfl, rfl⟩
  · intro fuel name args env s s1 evArgs hargs hlook hmax hmin
    simp only [run, hargs, hlook, if_neg hmax, if_neg hmin]
  · intro fuel v1 v2 vs hall
    have h1 : (toNum v1).isSome = true ∧ allNum (v2 :: vs) = true := by
      simpa [allNum] using hall
    obtain ⟨m, hm, hmem, hle, hbound⟩ := pyMaxFold_spec fuel (v2 :: vs) v1 h1.1 h1.2
    refine ⟨m, by rw [pyMax_two]; exact hm, hmem, fun w hw => ?_⟩
    rcases List.mem_cons.mp hw with h | h
    · exact h ▸ hle
    · exact hbound w h
  · intro fuel v1 v2 vs hall
    have h1 : (toNum v1).isSome = true ∧ allNum (v2 :: vs) = true := by
      simpa [allNum] using hall
    obtain ⟨m, hm, hmem, hle, hbound⟩ := pyMinFold_spec fuel (v2 :: vs) v1 h1.1 h1.2
    refine ⟨m, by rw [pyMin_two]; exact hm, hmem, fun w hw => ?_⟩
    rcases List.mem_cons.mp hw with h | h
    · exact h ▸ hle
    · exact hbound w h

/-- C7, counterexample to the original claim: max with exactly one numeric
argument does not return that argument; Python max unpacks a single
argument as an iterable, and the int 5 is not iterable, so the call
raises the host TypeError. -/
theorem c7_max_single_counterexample :
    (evalTop 30 (.funcCall "max" [.intLit "5"])).1 = .error .hostTypeError := rfl

/-- C7 witness: the UnknownFunction branch on the undeclared name boo and
the two-argument max branch on 3 and 5. -/
theorem c7_builtins_amended_witness :
    run 6 (.ev (.funcCall "boo" [])) 0 initState = (.error (.unknownFunction "boo"), initState)
      ∧ ∃ m, pyMax 1 [.vint 3, .vint 5] = .ok m ∧ m ∈ [Value.vint 3, .vint 5]
          ∧ ∀ w ∈ [Value.vint 3, .vint 5], toQv w ≤ toQv m :=
  ⟨c7_builtins_amended.1 5 "boo" [] 0 initState initState [] rfl rfl
      (by decide) (by decide),
    c7_builtins_amended.2.1 0 (.vint 3) (.vint 5) [] rfl⟩

/-- C4 witness: the scoping theorem at the concrete seed values 1 and 2. -/
theorem c4_scoping_if_for_witness :
    (e 30 (.program [.ifNode (.intLit "1")
          (.program [.varDecl "x" (.varRef "b"), .assignNode "y" (.varRef "x")]) [] none,
        .varRef "y"]) 0 ⟨[⟨none, [("y", .vint 1), ("b", .vint 2)]⟩], []⟩).1 = .ok (.vint 2)
    ∧ (e 30 (.program [.ifNode (.intLit "1")
          (.program [.varDecl "x" (.varRef "b"), .assignNode "y" (.varRef "x")]) [] none,
        .varRef "x"]) 0 ⟨[⟨none, [("y", .vint 1), ("b", .vint 2)]⟩], []⟩).1
      = .error (.undefinedVariable "x") :=
  ⟨(c4_scoping_if_for 1 2).1, (c4_scoping_if_for 1 2).2.1⟩
